import Mathlib

/-!
Shallow embedding of `.github/scripts/check_structure_trafic.py`:
a CLI that discovers `trafic.json` files, validates each against a JSON
Schema via the external `jsonschema` library, and reports results.

The external validator (`Draft7Validator(...).iter_errors`) is modelled as a
parameter `iter_errors : J → J → List VError` where `J` is the type of parsed
JSON documents; the script only consumes the list of errors it yields.
Filesystem facts (existence of the schema file and the logo directory, the
files `rglob` yields, the result of `json.load` on each file) are collected
in an `Env` record.
-/

namespace CheckStructureTrafic

variable {J : Type}

/-- A segment of a JSON location path (`err.path` in jsonschema): an array
index (Python `int`) or an object key (Python `str`). -/
inductive Seg where
  | idx : ℕ → Seg
  | key : String → Seg
deriving DecidableEq, Repr

/-- Python `str` comparison is lexicographic over Unicode code points, which
is exactly the lexicographic order on `String.data : List Char`. -/
def pyStrLe (a b : String) : Prop := a.data ≤ b.data

instance : DecidableRel pyStrLe :=
  fun a b => inferInstanceAs (Decidable (a.data ≤ b.data))

/-- Order key for a segment.  Python compares `int` with `int` and `str` with
`str` (lexicographically by code point); an `int`/`str` comparison never
decides a sort in this script because two error paths agree on every segment
before their first difference, and sibling segments of one document have a
single kind.  The model totalises the order by putting every index before
every key. -/
def Seg.toKey : Seg → Lex (ℕ ⊕ List Char)
  | .idx n => toLex (Sum.inl n)
  | .key s => toLex (Sum.inr s.data)

instance : LinearOrder Seg :=
  LinearOrder.lift' Seg.toKey (by
    intro a b h
    cases a <;> cases b <;>
      simp only [Seg.toKey, toLex_inj, Sum.inl.injEq, Sum.inr.injEq,
        reduceCtorEq] at h
    · exact congrArg Seg.idx h
    · exact congrArg Seg.key (String.ext h))

/-- One validation error yielded by the external library: its location path
within the document and its message. -/
structure VError where
  path : List Seg
  message : String
deriving DecidableEq, Repr

instance : DecidableRel (fun a b : VError => a.path ≤ b.path) :=
  fun a b => inferInstanceAs (Decidable (a.path ≤ b.path))

/-- Rendering of one path segment inside the location string: the f-string
`f"/{p}"` renders an `int` in decimal and a `str` verbatim. -/
def Seg.render : Seg → String
  | .idx n => toString n
  | .key s => s

/-- Builds `location = "".join(f"/{p}" for p in err.absolute_path) or "/"`. -/
def renderLocation (p : List Seg) : String :=
  let location := String.join (p.map (fun s => "/" ++ Seg.render s))
  if location = "" then "/" else location

/-- Model of `validate_instance(schema, instance, instance_path)` (source lines 38-45):
sorts the library's errors by `e.path` (Python's `sorted` is stable; insertion
sort over a total preorder is stable too, hence the same function) and renders
each as `f"{instance_path}: {location} -> {err.message}"`. -/
def validate_instance (iter_errors : J → J → List VError) (schema : J) (inst : J)
    (instance_path : String) : List String :=
  (List.insertionSort (fun a b => a.path ≤ b.path) (iter_errors schema inst)).map
    (fun err => instance_path ++ ": " ++ renderLocation err.path ++ " -> " ++ err.message)

instance {ε α : Type _} [DecidableEq ε] [DecidableEq α] : DecidableEq (Except ε α) :=
  fun a b =>
    match a, b with
    | .error x, .error y => decidable_of_iff (x = y) (by simp)
    | .ok x, .ok y => decidable_of_iff (x = y) (by simp)
    | .error _, .ok _ => isFalse (fun h => Except.noConfusion h)
    | .ok _, .error _ => isFalse (fun h => Except.noConfusion h)

/-- A discovered `trafic.json` file: its path (as displayed) and the result of
`load_json` on it; `.error exc` models `json.load` raising with message `exc`. -/
structure TFile (J : Type) where
  path : String
  parsed : Except String J
deriving DecidableEq, Repr

/-- The filesystem facts one run of the script depends on. -/
structure Env (J : Type) where
  /-- result of `schema_path.exists()` -/
  schemaExists : Bool
  /-- result of `load_json(schema_path)`; `.error exc` models a raised exception -/
  schemaLoad : Except String J
  /-- the searched logo directory exists -/
  logoDirExists : Bool
  /-- what `rglob("trafic.json")` yields (in filesystem order) when the
  directory exists; `rglob` on a missing directory yields nothing -/
  rawFiles : List (TFile J)
deriving DecidableEq

/-- The parsed command-line arguments of the script. -/
structure Args where
  /-- value of `--schema` (its display form, used in error messages) -/
  schema : String
  /-- value of `--root` -/
  root : String
  /-- value of `--logo-dir`, optional -/
  logo_dir : Option String
  /-- value of `--quiet` -/
  quiet : Bool
deriving DecidableEq, Repr

/-- Model of `find_trafic_files(root)` (source lines 25-30): the `trafic.json` files
under `root/logo`, or `[]` when that directory does not exist. -/
def find_trafic_files (env : Env J) : List (TFile J) :=
  if env.logoDirExists then env.rawFiles else []

/-- The `logo_root` local of `main` (source lines 58-61). -/
def logoRoot (args : Args) : String :=
  match args.logo_dir with
  | some d => d
  | none => args.root ++ "/logo"

/-- The `files` local of `main` (source line 73): `find_trafic_files(repo_root)`
unless `--logo-dir` was given, in which case `Path(args.logo_dir).rglob(...)`
directly (which also yields nothing when the directory does not exist). -/
def discovered (env : Env J) (args : Args) : List (TFile J) :=
  if args.logo_dir.isSome then
    (if env.logoDirExists then env.rawFiles else [])
  else
    find_trafic_files env

/-- The mutable locals of `main`'s per-file loop (source lines 78-97), plus the
lines printed from inside the loop (`print(f"OK: {f}")`). -/
structure LoopState where
  total : ℕ
  invalid : ℕ
  all_errors : List String
  okOut : List String
deriving DecidableEq, Repr

/-- Initial loop state, `total = 0; invalid = 0; all_errors = []` (source lines 78-80). -/
def initState : LoopState := ⟨0, 0, [], []⟩

/-- One iteration of the loop body (source lines 83-97) on file `f`. -/
def processFile (iter_errors : J → J → List VError) (schema : J) (quiet : Bool)
    (st : LoopState) (f : TFile J) : LoopState :=
  match f.parsed with
  | .error exc =>
      { total := st.total + 1, invalid := st.invalid + 1,
        all_errors := st.all_errors ++ [f.path ++ ": JSON parse error: " ++ exc],
        okOut := st.okOut }
  | .ok inst =>
      let errors := validate_instance iter_errors schema inst f.path
      if !errors.isEmpty then
        { total := st.total + 1, invalid := st.invalid + 1,
          all_errors := st.all_errors ++ errors,
          okOut := st.okOut }
      else
        { total := st.total + 1, invalid := st.invalid,
          all_errors := st.all_errors,
          okOut := st.okOut ++ (if quiet then [] else ["OK: " ++ f.path]) }

instance : DecidableRel (fun a b : TFile J => pyStrLe a.path b.path) :=
  fun a b => inferInstanceAs (Decidable (pyStrLe a.path b.path))

/-- Model of `sorted(files)` (source line 82): Python sorts the paths (stable sort;
insertion sort is stable too, hence extensionally the same function). -/
def sortedFiles (files : List (TFile J)) : List (TFile J) :=
  List.insertionSort (fun a b => pyStrLe a.path b.path) files

/-- Model of `for f in sorted(files): ...` (source lines 82-97): the loop runs over the
sorted files starting from the zeroed counters. -/
def loopRun (iter_errors : J → J → List VError) (schema : J) (quiet : Bool)
    (files : List (TFile J)) : LoopState :=
  (sortedFiles files).foldl (processFile iter_errors schema quiet) initState

/-- The block printed at source lines 99-102: a blank line, a header and one
`" - "`-prefixed line per collected error — only when there are errors. -/
def errorsBlock (all_errors : List String) : List String :=
  if all_errors.isEmpty then []
  else "" :: "Validation errors:" :: all_errors.map (fun e => " - " ++ e)

/-- The summary print at source line 104 (`print` of a string starting with a
newline contributes a blank line and then the text). -/
def summaryLine (total invalid : ℕ) : String :=
  "Checked " ++ toString total ++ " files: " ++ toString (total - invalid)
    ++ " valid, " ++ toString invalid ++ " invalid"

/-- What one run of the script emits: stdout lines, stderr lines, exit code. -/
structure RunResult where
  stdout : List String
  stderr : List String
  exitCode : ℕ
deriving DecidableEq, Repr

/-- Model of `main(argv)` (source lines 48-105). -/
def main (iter_errors : J → J → List VError) (env : Env J) (args : Args) :
    RunResult :=
  if !env.schemaExists then
    { stdout := [],
      stderr := ["ERROR: schema file not found at " ++ args.schema],
      exitCode := 2 }
  else
    match env.schemaLoad with
    | .error exc =>
        { stdout := [],
          stderr := ["ERROR: failed to load schema " ++ args.schema ++ ": " ++ exc],
          exitCode := 2 }
    | .ok schema =>
        let files := discovered env args
        if files.isEmpty then
          { stdout := ["No trafic.json files found under " ++ logoRoot args],
            stderr := [], exitCode := 0 }
        else
          let final := loopRun iter_errors schema args.quiet files
          { stdout := final.okOut ++ errorsBlock final.all_errors
              ++ ["", summaryLine final.total final.invalid],
            stderr := [],
            exitCode := if final.invalid ≠ 0 then 1 else 0 }

/-- The error lines the loop body collects for one file `f` (source lines
84-94): on a parse failure, one synthetic line; otherwise the rendered
violations of `validate_instance`. -/
def fileErrors (iter_errors : J → J → List VError) (schema : J) (f : TFile J) :
    List String :=
  match f.parsed with
  | .error exc => [f.path ++ ": JSON parse error: " ++ exc]
  | .ok inst => validate_instance iter_errors schema inst f.path

/-- Whether the loop counts file `f` as invalid: its parse failed or it
produced at least one violation. -/
def fileInvalid (iter_errors : J → J → List VError) (schema : J) (f : TFile J) :
    Bool :=
  !(fileErrors iter_errors schema f).isEmpty

/-- The confirmation lines file `f` contributes to stdout (source lines
96-97): one `OK:` line when it is valid and `--quiet` is off. -/
def fileOkLines (iter_errors : J → J → List VError) (schema : J) (quiet : Bool)
    (f : TFile J) : List String :=
  if fileInvalid iter_errors schema f then []
  else if quiet then [] else ["OK: " ++ f.path]

/-- The run aborts before validating anything: the schema file is missing or
fails to parse (source lines 63-71). -/
def schemaFatal (env : Env J) : Bool :=
  !env.schemaExists || !env.schemaLoad.isOk

/-- Modelled from the spec's exit-code table: `2` on a fatal setup error
(schema missing or unparseable), else `1` when at least one discovered file is
invalid, else `0` (also when no files were discovered). -/
def spec_exitCode (iter_errors : J → J → List VError) (env : Env J)
    (args : Args) : ℕ :=
  match env.schemaExists, env.schemaLoad with
  | false, _ => 2
  | true, .error _ => 2
  | true, .ok schema =>
      if (discovered env args).any (fileInvalid iter_errors schema) then 1 else 0

/-- The per-valid-file confirmation lines a non-quiet run prints, in processing
order; empty when the run never reaches the loop. -/
def okConfirmations (iter_errors : J → J → List VError) (env : Env J)
    (args : Args) : List String :=
  match env.schemaExists, env.schemaLoad with
  | true, .ok schema =>
      (sortedFiles (discovered env args)).flatMap (fileOkLines iter_errors schema false)
  | _, _ => []

/-- Tests whether `s` begins with `p`, compared code point by code point (kernel-computable
replacement for `String.startsWith`, used to recognise summary lines). -/
def beginsWith (p s : String) : Bool := p.data.isPrefixOf s.data

/-! ### Concrete fixtures used by witnesses and counterexamples -/

/-- A validator that reports no violations (`J := Unit`). -/
def ieNone : Unit → Unit → List VError := fun _ _ => []

/-- A validator that reports two violations, listed out of path order. -/
def ieTwoErr : Unit → Unit → List VError := fun _ _ =>
  [⟨[Seg.key "size", Seg.idx 1], "1 is not of type string"⟩,
   ⟨[], "width is a required property"⟩]

/-- A discovered file whose JSON parses. -/
def gFile : TFile Unit := ⟨"logo/zz/trafic.json", Except.ok ()⟩

/-- A discovered file whose JSON fails to parse. -/
def bFile : TFile Unit :=
  ⟨"logo/aa/trafic.json", Except.error "Expecting value: line 1 column 1 (char 0)"⟩

/-- Schema present and parsed; two discovered files. -/
def envTwo : Env Unit := ⟨true, Except.ok (), true, [gFile, bFile]⟩

/-- Schema present and parsed; the logo directory exists but holds no
matching files. -/
def envZero : Env Unit := ⟨true, Except.ok (), true, []⟩

/-- Schema present and parsed; the logo directory does not exist. -/
def envNoDir : Env Unit := ⟨true, Except.ok (), false, [gFile]⟩

/-- Plain arguments: default-style schema path and root, no overrides. -/
def argsPlain : Args := ⟨".github/models/trafic.schema.json", ".", none, false⟩

/-- The same arguments with `--quiet` switched on. -/
def argsQuiet : Args := ⟨".github/models/trafic.schema.json", ".", none, true⟩

/-! ### Order facts used by the sortedness proofs -/

theorem pyStrLe_trans {a b c : String} (h₁ : pyStrLe a b) (h₂ : pyStrLe b c) :
    pyStrLe a c := le_trans h₁ h₂

theorem pyStrLe_total (a b : String) : pyStrLe a b ∨ pyStrLe b a :=
  le_total a.data b.data

/-! ### Characterisation of the per-file loop -/

theorem processFile_error (iter_errors : J → J → List VError) (schema : J)
    (quiet : Bool) (st : LoopState) (f : TFile J) (exc : String)
    (hf : f.parsed = Except.error exc) :
    processFile iter_errors schema quiet st f =
      { total := st.total + 1, invalid := st.invalid + 1,
        all_errors := st.all_errors ++ [f.path ++ ": JSON parse error: " ++ exc],
        okOut := st.okOut } := by
  simp [processFile, hf]

theorem fileErrors_of_error (iter_errors : J → J → List VError) (schema : J)
    (f : TFile J) (exc : String) (hf : f.parsed = Except.error exc) :
    fileErrors iter_errors schema f = [f.path ++ ": JSON parse error: " ++ exc] := by
  simp [fileErrors, hf]

theorem fileErrors_of_ok (iter_errors : J → J → List VError) (schema : J)
    (f : TFile J) (inst : J) (hf : f.parsed = Except.ok inst) :
    fileErrors iter_errors schema f
      = validate_instance iter_errors schema inst f.path := by
  simp [fileErrors, hf]

theorem processFile_ok (iter_errors : J → J → List VError) (schema : J)
    (quiet : Bool) (st : LoopState) (f : TFile J) (inst : J)
    (hf : f.parsed = Except.ok inst) :
    processFile iter_errors schema quiet st f =
      (if (validate_instance iter_errors schema inst f.path).isEmpty then
        { total := st.total + 1, invalid := st.invalid,
          all_errors := st.all_errors,
          okOut := st.okOut ++ (if quiet then [] else ["OK: " ++ f.path]) }
      else
        { total := st.total + 1, invalid := st.invalid + 1,
          all_errors := st.all_errors ++ validate_instance iter_errors schema inst f.path,
          okOut := st.okOut }) := by
  by_cases he : (validate_instance iter_errors schema inst f.path).isEmpty <;>
    simp [processFile, hf, he]

theorem foldl_processFile (iter_errors : J → J → List VError) (schema : J)
    (quiet : Bool) (fs : List (TFile J)) (st : LoopState) :
    fs.foldl (processFile iter_errors schema quiet) st =
      { total := st.total + fs.length,
        invalid := st.invalid + fs.countP (fileInvalid iter_errors schema),
        all_errors := st.all_errors ++ fs.flatMap (fileErrors iter_errors schema),
        okOut := st.okOut ++ fs.flatMap (fileOkLines iter_errors schema quiet) } := by
  induction fs generalizing st with
  | nil => simp
  | cons f fs ih =>
    rw [List.foldl_cons, ih]
    cases hf : f.parsed with
    | error exc =>
      have h1 := fileErrors_of_error iter_errors schema f exc hf
      have h2 : fileInvalid iter_errors schema f = true := by
        simp [fileInvalid, h1]
      have h3 : fileOkLines iter_errors schema quiet f = [] := by
        simp [fileOkLines, h2]
      rw [processFile_error iter_errors schema quiet st f exc hf]
      simp [List.countP_cons, List.flatMap_cons, h1, h2, h3, List.append_assoc,
        LoopState.mk.injEq]
      omega
    | ok inst =>
      have h1 := fileErrors_of_ok iter_errors schema f inst hf
      rw [processFile_ok iter_errors schema quiet st f inst hf]
      by_cases he : (validate_instance iter_errors schema inst f.path).isEmpty
      · have h2 : fileInvalid iter_errors schema f = false := by
          simp [fileInvalid, h1, he]
        have h3 : fileOkLines iter_errors schema quiet f
            = (if quiet then [] else ["OK: " ++ f.path]) := by
          simp [fileOkLines, h2]
        have h4 : fileErrors iter_errors schema f = [] := by
          rw [h1]; exact List.isEmpty_iff.mp he
        simp [he, List.countP_cons, List.flatMap_cons, h2, h3, h4,
          List.append_assoc, LoopState.mk.injEq]
        omega
      · have h2 : fileInvalid iter_errors schema f = true := by
          simp [fileInvalid, h1, he]
        have h3 : fileOkLines iter_errors schema quiet f = [] := by
          simp [fileOkLines, h2]
        simp [he, List.countP_cons, List.flatMap_cons, h1, h2, h3,
          List.append_assoc, LoopState.mk.injEq]
        omega

theorem loopRun_eq (iter_errors : J → J → List VError) (schema : J)
    (quiet : Bool) (files : List (TFile J)) :
    loopRun iter_errors schema quiet files =
      { total := files.length,
        invalid := files.countP (fileInvalid iter_errors schema),
        all_errors := (sortedFiles files).flatMap (fileErrors iter_errors schema),
        okOut := (sortedFiles files).flatMap (fileOkLines iter_errors schema quiet) } := by
  have hperm : (sortedFiles files).Perm files := List.perm_insertionSort _ _
  rw [loopRun, foldl_processFile]
  simp [initState, hperm.length_eq, hperm.countP_eq]

/-! ### Characterisation of `main` -/

theorem main_ok_shape (iter_errors : J → J → List VError) (env : Env J)
    (args : Args) (schema : J)
    (h1 : env.schemaExists = true) (h2 : env.schemaLoad = Except.ok schema) :
    main iter_errors env args =
      (if (discovered env args).isEmpty then
        { stdout := ["No trafic.json files found under " ++ logoRoot args],
          stderr := [], exitCode := 0 }
      else
        { stdout :=
            (sortedFiles (discovered env args)).flatMap
              (fileOkLines iter_errors schema args.quiet)
            ++ errorsBlock
                ((sortedFiles (discovered env args)).flatMap
                  (fileErrors iter_errors schema))
            ++ ["", summaryLine (discovered env args).length
                  ((discovered env args).countP (fileInvalid iter_errors schema))],
          stderr := [],
          exitCode :=
            if (discovered env args).countP (fileInvalid iter_errors schema) ≠ 0
            then 1 else 0 }) := by
  simp [main, h1, h2, loopRun_eq]

theorem main_exitCode_of_ok (iter_errors : J → J → List VError) (env : Env J)
    (args : Args) (schema : J)
    (h1 : env.schemaExists = true) (h2 : env.schemaLoad = Except.ok schema) :
    (main iter_errors env args).exitCode
      = if (discovered env args).countP (fileInvalid iter_errors schema) ≠ 0
        then 1 else 0 := by
  rw [main_ok_shape iter_errors env args schema h1 h2]
  by_cases hE : (discovered env args).isEmpty
  · rw [if_pos hE]
    simp [List.isEmpty_iff.mp hE]
  · rw [if_neg hE]

theorem main_stdout_getLast (iter_errors : J → J → List VError) (env : Env J)
    (args : Args) (schema : J)
    (h1 : env.schemaExists = true) (h2 : env.schemaLoad = Except.ok schema)
    (h3 : (discovered env args).isEmpty = false) :
    (main iter_errors env args).stdout.getLast?
      = some (summaryLine (discovered env args).length
          ((discovered env args).countP (fileInvalid iter_errors schema))) := by
  rw [main_ok_shape iter_errors env args schema h1 h2, if_neg (by simp [h3])]
  simp [List.getLast?_append]

/-! ### The claims -/

/-- C1: For every run, the exit code is 0 when every discovered file parsed
and validated cleanly (or no files were discovered), 1 when at least one
discovered file is invalid, and 2 when the schema file is missing or fails to
parse — and in that fatal case nothing is printed to stdout, so no file is
validated or reported. `spec_exitCode` transcribes the spec's exit-code
table. -/
theorem exit_codes_match_spec (iter_errors : J → J → List VError) (env : Env J)
    (args : Args) :
    (main iter_errors env args).exitCode = spec_exitCode iter_errors env args
    ∧ (schemaFatal env = false ∨ (main iter_errors env args).stdout = []) := by
  cases h1 : env.schemaExists with
  | false =>
    refine ⟨?_, Or.inr ?_⟩ <;> simp [main, spec_exitCode, h1]
  | true =>
    cases h2 : env.schemaLoad with
    | error exc =>
      refine ⟨?_, Or.inr ?_⟩ <;> simp [main, spec_exitCode, h1, h2]
    | ok schema =>
      refine ⟨?_, Or.inl (by simp [schemaFatal, h1, h2, Except.isOk, Except.toBool])⟩
      rw [main_exitCode_of_ok iter_errors env args schema h1 h2]
      simp only [spec_exitCode, h1, h2]
      have key : (0 < (discovered env args).countP (fileInvalid iter_errors schema))
          ↔ ((discovered env args).any (fileInvalid iter_errors schema) = true) := by
        rw [List.countP_pos_iff, List.any_eq_true]
      by_cases ha : (discovered env args).any (fileInvalid iter_errors schema) = true
      · rw [if_pos (Nat.pos_iff_ne_zero.mp (key.mpr ha)), if_pos ha]
      · rw [if_neg (fun h => ha (key.mp (Nat.pos_of_ne_zero h))), if_neg ha]

/-- C2: The loop's invalid counter counts each invalid file exactly once, no
matter how many error lines the file produced: it equals the number of
distinct files whose collected error list is nonempty. -/
theorem invalid_count_once_per_file (iter_errors : J → J → List VError)
    (schema : J) (quiet : Bool) (files : List (TFile J)) :
    (loopRun iter_errors schema quiet files).invalid
      = (files.filter (fileInvalid iter_errors schema)).length := by
  rw [loopRun_eq]
  exact List.countP_eq_length_filter _ _

/-- C3: A file whose JSON fails to parse contributes exactly one synthetic
error line describing the exception, is counted invalid, and the loop still
processes every file of the batch (the totals and the collected errors cover
the whole, sorted, file list). -/
theorem parse_failure_isolated (iter_errors : J → J → List VError)
    (schema : J) (quiet : Bool) (files : List (TFile J)) (f : TFile J)
    (exc : String) (hf : f.parsed = Except.error exc) :
    fileErrors iter_errors schema f = [f.path ++ ": JSON parse error: " ++ exc]
    ∧ fileInvalid iter_errors schema f = true
    ∧ (loopRun iter_errors schema quiet files).total = files.length
    ∧ (loopRun iter_errors schema quiet files).all_errors
        = (sortedFiles files).flatMap (fileErrors iter_errors schema) := by
  have h1 := fileErrors_of_error iter_errors schema f exc hf
  refine ⟨h1, by simp [fileInvalid, h1], ?_, ?_⟩ <;> rw [loopRun_eq]

theorem parse_failure_isolated_witness :
    bFile.parsed = Except.error "Expecting value: line 1 column 1 (char 0)"
    ∧ (fileErrors ieNone () bFile
        = [bFile.path ++ ": JSON parse error: "
            ++ "Expecting value: line 1 column 1 (char 0)"]
      ∧ fileInvalid ieNone () bFile = true
      ∧ (loopRun ieNone () false [gFile, bFile]).total = [gFile, bFile].length
      ∧ (loopRun ieNone () false [gFile, bFile]).all_errors
          = (sortedFiles [gFile, bFile]).flatMap (fileErrors ieNone ())) :=
  ⟨rfl, parse_failure_isolated ieNone () false [gFile, bFile] bFile
    "Expecting value: line 1 column 1 (char 0)" rfl⟩

/-- C4 counterexample: a run that gets past schema loading but discovers zero
files prints only the `No trafic.json files found` notice and exits 0 — no
summary line (`Checked ... files: ...`) is printed, contradicting the claim
that the summary is printed "including the run in which zero files are
discovered". -/
theorem no_summary_on_zero_files :
    (main ieNone envZero argsPlain).stdout
        = ["No trafic.json files found under ./logo"]
    ∧ ((main ieNone envZero argsPlain).stdout.any (beginsWith "Checked")) = false
    ∧ (main ieNone envZero argsPlain).exitCode = 0 := by decide

/-- C4 (amended): for every run that gets past schema loading and discovers at
least one file, the last stdout line is the summary line carrying the total
number of files checked, the valid count and the invalid count; a zero-file
run instead prints only the `No trafic.json files found` notice. -/
theorem summary_line_closes_output (iter_errors : J → J → List VError)
    (env : Env J) (args : Args) (schema : J)
    (h1 : env.schemaExists = true) (h2 : env.schemaLoad = Except.ok schema)
    (h3 : (discovered env args).isEmpty = false) :
    (main iter_errors env args).stdout.getLast?
      = some (summaryLine (discovered env args).length
          ((discovered env args).countP (fileInvalid iter_errors schema))) :=
  main_stdout_getLast iter_errors env args schema h1 h2 h3

theorem summary_line_closes_output_witness :
    envTwo.schemaExists = true
    ∧ envTwo.schemaLoad = Except.ok ()
    ∧ (discovered envTwo argsPlain).isEmpty = false
    ∧ (main ieNone envTwo argsPlain).stdout.getLast?
        = some "Checked 2 files: 1 valid, 1 invalid" := by
  refine ⟨rfl, rfl, rfl, ?_⟩
  have h := summary_line_closes_output ieNone envTwo argsPlain () rfl rfl rfl
  exact h.trans (by decide)

/-- C5: for every parsed instance, `validate_instance` returns the rendering
of the complete violation list of the external validator (a permutation — no
violation is dropped), ordered ascending by the violation's location path,
and an empty location path (the document root) is rendered as `/`. -/
theorem violations_complete_and_sorted (iter_errors : J → J → List VError)
    (schema inst : J) (instance_path : String) :
    ∃ es : List VError,
      es.Perm (iter_errors schema inst)
      ∧ es.Pairwise (fun a b => a.path ≤ b.path)
      ∧ validate_instance iter_errors schema inst instance_path
          = es.map (fun err =>
              instance_path ++ ": " ++ renderLocation err.path ++ " -> " ++ err.message)
      ∧ renderLocation [] = "/" := by
  refine ⟨List.insertionSort (fun a b => a.path ≤ b.path) (iter_errors schema inst),
    List.perm_insertionSort _ _, ?_, rfl, rfl⟩
  exact @List.sorted_insertionSort VError (fun a b => a.path ≤ b.path) _
    ⟨fun a b => le_total a.path b.path⟩ ⟨fun _ _ _ h₁ h₂ => le_trans h₁ h₂⟩
    (iter_errors schema inst)

/-- C6: when the search directory does not exist, discovery returns the empty
list rather than an error, the run reports that zero files were found, and
the process exits with code 0. -/
theorem missing_dir_reports_zero_and_exits_zero (iter_errors : J → J → List VError)
    (env : Env J) (args : Args) (schema : J)
    (h1 : env.logoDirExists = false)
    (h2 : env.schemaExists = true) (h3 : env.schemaLoad = Except.ok schema) :
    find_trafic_files env = []
    ∧ (main iter_errors env args).stdout
        = ["No trafic.json files found under " ++ logoRoot args]
    ∧ (main iter_errors env args).exitCode = 0 := by
  have hd : discovered env args = [] := by
    unfold discovered find_trafic_files
    cases args.logo_dir.isSome <;> simp [h1]
  refine ⟨by simp [find_trafic_files, h1], ?_, ?_⟩ <;>
    rw [main_ok_shape iter_errors env args schema h2 h3, if_pos (by simp [hd])]

theorem missing_dir_reports_zero_and_exits_zero_witness :
    envNoDir.logoDirExists = false
    ∧ envNoDir.schemaExists = true
    ∧ envNoDir.schemaLoad = Except.ok ()
    ∧ (find_trafic_files envNoDir = []
      ∧ (main ieNone envNoDir argsPlain).stdout
          = ["No trafic.json files found under " ++ logoRoot argsPlain]
      ∧ (main ieNone envNoDir argsPlain).exitCode = 0) :=
  ⟨rfl, rfl, rfl,
    missing_dir_reports_zero_and_exits_zero ieNone envNoDir argsPlain () rfl rfl rfl⟩

/-- C7: every run that reaches the loop processes the discovered files in
sorted path order: stdout is exactly the confirmation lines and grouped error
lines generated file by file over a path-sorted permutation of the discovered
files, followed by the summary — hence the report is deterministic on a given
file set. -/
theorem files_processed_in_sorted_order (iter_errors : J → J → List VError)
    (env : Env J) (args : Args) (schema : J)
    (h1 : env.schemaExists = true) (h2 : env.schemaLoad = Except.ok schema)
    (h3 : (discovered env args).isEmpty = false) :
    ∃ fs : List (TFile J),
      fs.Perm (discovered env args)
      ∧ fs.Pairwise (fun a b => pyStrLe a.path b.path)
      ∧ (main iter_errors env args).stdout
          = fs.flatMap (fileOkLines iter_errors schema args.quiet)
            ++ errorsBlock (fs.flatMap (fileErrors iter_errors schema))
            ++ ["", summaryLine fs.length (fs.countP (fileInvalid iter_errors schema))] := by
  have hperm : (sortedFiles (discovered env args)).Perm (discovered env args) :=
    List.perm_insertionSort _ _
  refine ⟨sortedFiles (discovered env args), hperm, ?_, ?_⟩
  · exact @List.sorted_insertionSort (TFile J) (fun a b => pyStrLe a.path b.path) _
      ⟨fun a b => pyStrLe_total a.path b.path⟩
      ⟨fun _ _ _ h₁ h₂ => pyStrLe_trans h₁ h₂⟩ (discovered env args)
  · rw [main_ok_shape iter_errors env args schema h1 h2, if_neg (by simp [h3])]
    rw [hperm.length_eq, hperm.countP_eq]

theorem files_processed_in_sorted_order_witness :
    envTwo.schemaExists = true
    ∧ envTwo.schemaLoad = Except.ok ()
    ∧ (discovered envTwo argsPlain).isEmpty = false
    ∧ ∃ fs : List (TFile Unit),
        fs.Perm (discovered envTwo argsPlain)
        ∧ fs.Pairwise (fun a b => pyStrLe a.path b.path)
        ∧ (main ieNone envTwo argsPlain).stdout
            = fs.flatMap (fileOkLines ieNone () argsPlain.quiet)
              ++ errorsBlock (fs.flatMap (fileErrors ieNone ()))
              ++ ["", summaryLine fs.length (fs.countP (fileInvalid ieNone ()))] :=
  ⟨rfl, rfl, rfl,
    files_processed_in_sorted_order ieNone envTwo argsPlain () rfl rfl rfl⟩

/-- C8: rerunning on an unchanged schema and an unchanged input directory
(the same files, possibly enumerated by the filesystem in a different order)
yields the same exit code and the same final summary line, hence the same
total, valid and invalid counts. -/
theorem rerun_same_summary_and_exit (iter_errors : J → J → List VError)
    (env₁ env₂ : Env J) (args : Args)
    (hs : env₂.schemaExists = env₁.schemaExists)
    (hl : env₂.schemaLoad = env₁.schemaLoad)
    (hd : env₂.logoDirExists = env₁.logoDirExists)
    (hp : env₂.rawFiles.Perm env₁.rawFiles) :
    (main iter_errors env₂ args).exitCode = (main iter_errors env₁ args).exitCode
    ∧ (main iter_errors env₂ args).stdout.getLast?
        = (main iter_errors env₁ args).stdout.getLast? := by
  cases h1 : env₁.schemaExists with
  | false => constructor <;> simp [main, h1, hs.trans h1]
  | true =>
    cases h2 : env₁.schemaLoad with
    | error exc => constructor <;> simp [main, h1, hs.trans h1, h2, hl.trans h2]
    | ok schema =>
      have h1' : env₂.schemaExists = true := hs.trans h1
      have h2' : env₂.schemaLoad = Except.ok schema := hl.trans h2
      have hdp : (discovered env₂ args).Perm (discovered env₁ args) := by
        unfold discovered find_trafic_files
        cases args.logo_dir.isSome <;> rw [hd] <;>
          cases env₁.logoDirExists <;> simp [hp]
      cases hE : (discovered env₁ args).isEmpty with
      | true =>
        have he : discovered env₁ args = [] := List.isEmpty_iff.mp hE
        have he2 : discovered env₂ args = [] := by
          refine List.Perm.eq_nil ?_
          rw [← he]
          exact hdp
        rw [main_ok_shape iter_errors env₂ args schema h1' h2',
          main_ok_shape iter_errors env₁ args schema h1 h2,
          if_pos (by simp [he2]), if_pos (by simp [he])]
        exact ⟨rfl, rfl⟩
      | false =>
        have hE2 : (discovered env₂ args).isEmpty = false := by
          cases hq : (discovered env₂ args).isEmpty with
          | false => rfl
          | true =>
            exfalso
            have hnil := List.isEmpty_iff.mp hq
            rw [hnil] at hdp
            rw [hdp.symm.eq_nil] at hE
            exact Bool.noConfusion hE
        constructor
        · rw [main_exitCode_of_ok iter_errors env₂ args schema h1' h2',
            main_exitCode_of_ok iter_errors env₁ args schema h1 h2,
            hdp.countP_eq]
        · rw [main_stdout_getLast iter_errors env₂ args schema h1' h2' hE2,
            main_stdout_getLast iter_errors env₁ args schema h1 h2 hE,
            hdp.countP_eq, hdp.length_eq]

theorem rerun_same_summary_and_exit_witness :
    ((⟨true, Except.ok (), true, [bFile, gFile]⟩ : Env Unit).schemaExists
        = envTwo.schemaExists
    ∧ (⟨true, Except.ok (), true, [bFile, gFile]⟩ : Env Unit).schemaLoad
        = envTwo.schemaLoad
    ∧ (⟨true, Except.ok (), true, [bFile, gFile]⟩ : Env Unit).logoDirExists
        = envTwo.logoDirExists
    ∧ (⟨true, Except.ok (), true, [bFile, gFile]⟩ : Env Unit).rawFiles.Perm
        envTwo.rawFiles)
    ∧ ((main ieNone ⟨true, Except.ok (), true, [bFile, gFile]⟩ argsPlain).exitCode
        = (main ieNone envTwo argsPlain).exitCode
      ∧ (main ieNone ⟨true, Except.ok (), true, [bFile, gFile]⟩ argsPlain).stdout.getLast?
          = (main ieNone envTwo argsPlain).stdout.getLast?) :=
  ⟨⟨rfl, rfl, rfl, List.Perm.swap gFile bFile []⟩,
    rerun_same_summary_and_exit ieNone envTwo ⟨true, Except.ok (), true, [bFile, gFile]⟩
      argsPlain rfl rfl rfl (List.Perm.swap gFile bFile [])⟩

/-- C9: the `--quiet` flag only suppresses the per-valid-file `OK`
confirmation lines: the non-quiet run's stdout is exactly those confirmation
lines prepended to the quiet run's stdout (so the error listing and the
summary line are identical), and exit code and stderr are unchanged. -/
theorem quiet_only_hides_ok_lines (iter_errors : J → J → List VError)
    (env : Env J) (argsQ argsL : Args)
    (hsc : argsQ.schema = argsL.schema) (hrt : argsQ.root = argsL.root)
    (hld : argsQ.logo_dir = argsL.logo_dir)
    (hqq : argsQ.quiet = true) (hql : argsL.quiet = false) :
    (main iter_errors env argsL).stdout
      = okConfirmations iter_errors env argsL
        ++ (main iter_errors env argsQ).stdout
    ∧ (main iter_errors env argsQ).exitCode = (main iter_errors env argsL).exitCode
    ∧ (main iter_errors env argsQ).stderr = (main iter_errors env argsL).stderr := by
  have hdq : discovered env argsQ = discovered env argsL := by
    unfold discovered
    rw [hld]
  have hlr : logoRoot argsQ = logoRoot argsL := by
    unfold logoRoot
    rw [hld, hrt]
  cases h1 : env.schemaExists with
  | false =>
    refine ⟨?_, ?_, ?_⟩ <;> cases h2 : env.schemaLoad <;>
      simp [main, okConfirmations, h1, h2, hsc]
  | true =>
    cases h2 : env.schemaLoad with
    | error exc =>
      refine ⟨?_, ?_, ?_⟩ <;> simp [main, okConfirmations, h1, h2, hsc]
    | ok schema =>
      have hsl := main_ok_shape iter_errors env argsL schema h1 h2
      have hsq := main_ok_shape iter_errors env argsQ schema h1 h2
      cases hE : (discovered env argsL).isEmpty with
      | true =>
        have he := List.isEmpty_iff.mp hE
        rw [if_pos hE] at hsl
        rw [hdq, if_pos hE] at hsq
        rw [hsl, hsq]
        refine ⟨?_, rfl, rfl⟩
        simp [okConfirmations, h1, h2, he, sortedFiles, hlr]
      | false =>
        have hq : ∀ fs : List (TFile J),
            fs.flatMap (fileOkLines iter_errors schema true) = [] := by
          intro fs
          induction fs with
          | nil => rfl
          | cons g gs ih => simp [fileOkLines, ih]
        rw [if_neg (by simp [hE])] at hsl
        rw [hdq, if_neg (by simp [hE])] at hsq
        rw [hql] at hsl
        rw [hqq, hq, List.nil_append] at hsq
        rw [hsl, hsq]
        refine ⟨?_, rfl, rfl⟩
        simp [okConfirmations, h1, h2, List.append_assoc]

theorem quiet_only_hides_ok_lines_witness :
    argsQuiet.schema = argsPlain.schema
    ∧ argsQuiet.root = argsPlain.root
    ∧ argsQuiet.logo_dir = argsPlain.logo_dir
    ∧ argsQuiet.quiet = true
    ∧ argsPlain.quiet = false
    ∧ ((main ieNone envTwo argsPlain).stdout
        = okConfirmations ieNone envTwo argsPlain
          ++ (main ieNone envTwo argsQuiet).stdout
      ∧ (main ieNone envTwo argsQuiet).exitCode
          = (main ieNone envTwo argsPlain).exitCode
      ∧ (main ieNone envTwo argsQuiet).stderr
          = (main ieNone envTwo argsPlain).stderr) :=
  ⟨rfl, rfl, rfl, rfl, rfl,
    quiet_only_hides_ok_lines ieNone envTwo argsQuiet argsPlain rfl rfl rfl rfl rfl⟩

/-- C10: in every run that reaches the summary, the counters are consistent:
`invalid ≤ total`, `total` equals the number of discovered files, the printed
valid count `total - invalid` satisfies `(total - invalid) + invalid = total`,
and the summary line printed last reports exactly these counters. -/
theorem counters_consistent (iter_errors : J → J → List VError) (env : Env J)
    (args : Args) (schema : J)
    (h1 : env.schemaExists = true) (h2 : env.schemaLoad = Except.ok schema)
    (h3 : (discovered env args).isEmpty = false) :
    (loopRun iter_errors schema args.quiet (discovered env args)).invalid
        ≤ (loopRun iter_errors schema args.quiet (discovered env args)).total
    ∧ (loopRun iter_errors schema args.quiet (discovered env args)).total
        = (discovered env args).length
    ∧ ((loopRun iter_errors schema args.quiet (discovered env args)).total
          - (loopRun iter_errors schema args.quiet (discovered env args)).invalid)
        + (loopRun iter_errors schema args.quiet (discovered env args)).invalid
        = (loopRun iter_errors schema args.quiet (discovered env args)).total
    ∧ (main iter_errors env args).stdout.getLast?
        = some (summaryLine
            (loopRun iter_errors schema args.quiet (discovered env args)).total
            (loopRun iter_errors schema args.quiet (discovered env args)).invalid) := by
  rw [loopRun_eq]
  refine ⟨List.countP_le_length _, rfl, ?_, ?_⟩
  · exact Nat.sub_add_cancel (List.countP_le_length _)
  · rw [main_stdout_getLast iter_errors env args schema h1 h2 h3]

theorem counters_consistent_witness :
    envTwo.schemaExists = true
    ∧ envTwo.schemaLoad = Except.ok ()
    ∧ (discovered envTwo argsPlain).isEmpty = false
    ∧ ((loopRun ieNone () argsPlain.quiet (discovered envTwo argsPlain)).invalid
          ≤ (loopRun ieNone () argsPlain.quiet (discovered envTwo argsPlain)).total
      ∧ (loopRun ieNone () argsPlain.quiet (discovered envTwo argsPlain)).total
          = (discovered envTwo argsPlain).length
      ∧ ((loopRun ieNone () argsPlain.quiet (discovered envTwo argsPlain)).total
            - (loopRun ieNone () argsPlain.quiet (discovered envTwo argsPlain)).invalid)
          + (loopRun ieNone () argsPlain.quiet (discovered envTwo argsPlain)).invalid
          = (loopRun ieNone () argsPlain.quiet (discovered envTwo argsPlain)).total
      ∧ (main ieNone envTwo argsPlain).stdout.getLast?
          = some (summaryLine
              (loopRun ieNone () argsPlain.quiet (discovered envTwo argsPlain)).total
              (loopRun ieNone () argsPlain.quiet (discovered envTwo argsPlain)).invalid)) :=
  ⟨rfl, rfl, rfl, counters_consistent ieNone envTwo argsPlain () rfl rfl rfl⟩

end CheckStructureTrafic
